import Mathlib

/-!
A shallow embedding of `src/pinq.py`, the PINQ query-operator library, and
proofs about its operators.  Each definition cites the lines of the Python
source it translates.

The Python module as a whole is not syntactically valid (it cannot be
loaded): the parser rejects line 156 in `average`, line 287 in `distinct`,
line 343 (`def except`), line 374 in `ExceptIterator`, and line 437 (the
`Grouping` class).  Where a claim is decided by such a method, the embedding
applies only the minimal repair the Python grammar forces and models the
runtime behaviour of the repaired method; each such repair is documented in
the doc comment of the definition it affects.
-/

namespace Pinq

/-- A model of the Python values the embedded operators manipulate: `None`,
integers, and (unhashable) list values. -/
inductive PyVal where
  | none : PyVal
  | int : Int → PyVal
  | list : List PyVal → PyVal

/-- A model of the exceptions the embedded methods can surface: the built-in
`TypeError` and `NameError`, and the exception classes of src/pinq.py lines
13-26 that the claims mention (`NoElementsError`, `OutOfRangeError`). -/
inductive PErr where
  | typeError : PErr
  | nameError : PErr
  | noElements : PErr
  | outOfRange : PErr
  deriving DecidableEq

/-- Embedding of `functools.reduce(func, xs, init)` as used by
`Pinq.aggregate` (src/pinq.py line 58): a left fold whose accumulator starts
at `init` and in which an exception raised by `func` aborts the fold and
propagates. -/
def reduce {ε α : Type} (f : α → α → Except ε α) : α → List α → Except ε α
  | init, [] => Except.ok init
  | init, x :: xs =>
    match f init x with
    | Except.ok acc => reduce f acc xs
    | Except.error e => Except.error e

/-- Embedding of `Pinq.aggregate` (src/pinq.py lines 49-66) on a list source.
The Python signature is `aggregate(self, func, seed=None, resultSelector=None)`
and the body runs `functools.reduce(func, self._iterable, seed)`:
`functools.reduce` treats an explicitly passed `None` as a genuine initial
accumulator, so an omitted seed is modelled as `PyVal.none` fed to the fold.
A `TypeError` escaping the reduce is converted at lines 59-62 into
`NoElementsError`; any other exception propagates; otherwise
`resultSelector`, when supplied, is applied to the final accumulator
(lines 63-66). -/
def aggregate (func : PyVal → PyVal → Except PErr PyVal) (xs : List PyVal)
    (seed : PyVal) (resultSelector : Option (PyVal → PyVal)) :
    Except PErr PyVal :=
  match reduce func seed xs with
  | Except.error PErr.typeError => Except.error PErr.noElements
  | Except.error e => Except.error e
  | Except.ok r =>
    match resultSelector with
    | Option.none => Except.ok r
    | Option.some g => Except.ok (g r)

/-- The Python `+` on the modelled values, as a fold function for
`aggregate`: integer addition on two integers, and `TypeError` whenever an
operand is `None` or a list of different shape, exactly as `None + 1` or
`1 + None` raise `TypeError` in Python. -/
def pyAdd : PyVal → PyVal → Except PErr PyVal
  | PyVal.int a, PyVal.int b => Except.ok (PyVal.int (a + b))
  | _, _ => Except.error PErr.typeError

/-- Embedding of `Pinq.average` (src/pinq.py lines 105-176) on a list of
integers, with no projection function.  Line 123 tests
`if not any(self._iterable)` and raises `NoElementsError` when the test
fails, i.e. it tests element truthiness, not emptiness: for integers,
`any` is true exactly when some element is nonzero.  A list reports its
length, so the branch of line 152 runs: `s = sum(self._iterable)`,
`c = len(self._iterable)` and `result = s / c`, Python true division,
modelled over the rationals.  (Lines 155-156 of that branch are themselves
a syntax error, `except: TypeError:` with a doubled colon; the minimal
repair reads them as the `except TypeError:` and `except ValueError:` of
the parallel branch at lines 133-135.  For integer elements the first `sum`
succeeds, so those handlers are not reached.) -/
def average (xs : List Int) : Except PErr Rat :=
  if xs.any (fun x => decide (x ≠ 0)) then
    Except.ok ((xs.sum : Rat) / (xs.length : Rat))
  else
    Except.error PErr.noElements

/-- Embedding of `Pinq.count` (src/pinq.py lines 222-242) on a list source.
With no predicate, a list has `__len__`, so `len` is returned (line 233);
with a predicate, the loop at lines 239-242 runs
`for _ in map(predicate, ...): count += 1`, i.e. it applies the predicate to
every element, discards the result, and counts every element. -/
def count {α : Type} (xs : List α) : Option (α → Bool) → Nat
  | Option.none => xs.length
  | Option.some p => (xs.map p).length

/-- Embedding of `Pinq.default_if_empty` (src/pinq.py lines 244-255) on a
list of integers.  Line 253 tests `if any(self._iterable)` — element
truthiness, true for integers exactly when some element is nonzero — and
returns the original pipeline when it holds, else a fresh one-element
pipeline holding the default value. -/
def default_if_empty (xs : List Int) (d : Int) : List Int :=
  if xs.any (fun x => decide (x ≠ 0)) then xs else [d]

/-- A source fed to the indexing operators of src/pinq.py: either a sequence
exposing `__getitem__` (such as a Python list), or an iterator-only source
producing the same elements (such as a generator), for which the
`__getitem__` access raises `AttributeError`/`TypeError` and the fallback
branch runs. -/
inductive Src (α : Type) where
  | seq : List α → Src α
  | gen : List α → Src α

/-- Embedding of `Pinq.element_at` (src/pinq.py lines 294-314) at a natural
index.  On a `__getitem__` source, line 301 returns the element at the
index, and an `IndexError` becomes `OutOfRangeError` (lines 310-314).  On an
iterator-only source, line 304 evaluates `next(itertools.islice(it, index))`:
`islice` with a single stop argument yields the first `index` elements, so
`next` returns the FIRST element of the source whenever `index >= 1` and an
element exists, and raises `StopIteration` — rerouted to `OutOfRangeError`
at lines 305-309 — when `index = 0` or the source is empty. -/
def element_at {α : Type} : Src α → Nat → Except PErr α
  | Src.seq xs, i =>
    match xs.get? i with
    | Option.some x => Except.ok x
    | Option.none => Except.error PErr.outOfRange
  | Src.gen xs, i =>
    match (xs.take i).head? with
    | Option.some x => Except.ok x
    | Option.none => Except.error PErr.outOfRange

/-- Embedding of `Pinq.element_at_or_default` (src/pinq.py lines 316-330):
identical to `element_at` except that both failure reroutes (lines 325-330)
return the caller-supplied default instead of raising. -/
def element_at_or_default {α : Type} : Src α → Nat → α → α
  | Src.seq xs, i, d => (xs.get? i).getD d
  | Src.gen xs, i, d => ((xs.take i).head?).getD d

/-- Embedding of `Pinq.distinct` (src/pinq.py lines 257-292): the outcome of
`list(Pinq(source).distinct())` on a list source.  The method body is not
syntactically valid Python — line 287 reads `except TypeError:` with no
enclosing `try` — so the module cannot be loaded.  Under the one repair the
grammar forces (wrapping lines 284-286 in `try:`), a traversal still never
reaches the source: `list` first calls `DistinctIterator.__iter__` (lines
275-280), whose second statement `self._seenset_add = _seenset.add` reads
the bare name `_seenset`, which is bound in no enclosing scope (the
attribute assigned on the previous line is `self._seenset`), so every
traversal raises `NameError` before any element is produced.  The
denotation of the operator is therefore the `NameError` outcome, for every
source. -/
def distinct (_source : List PyVal) : Except PErr (List PyVal) :=
  Except.error PErr.nameError

/-- Embedding of the set-difference operator of src/pinq.py (lines 343-379).
The method head `def except(self, first, second, comparer):` uses the
reserved word `except` as the method name, which the Python grammar
rejects; under the minimal renaming (the `except_` of the spec), a call
still fails before producing anything: line 379 evaluates
`ExceptIterator(self._iterable)` with one argument where
`ExceptIterator.__init__` (line 351) requires the three arguments `first`,
`second` and `comparer`, so every call raises `TypeError`.  (The iterator
body repeats the `except`-without-`try` error of `distinct` at line 374,
reads the unbound name `_seenset` at line 358, and reads the never-assigned
attribute `self._iterable` at line 370; none of it is reachable.)  The
denotation is therefore the `TypeError` outcome, for all arguments. -/
def except_ (_first _second : List PyVal) : Except PErr (List PyVal) :=
  Except.error PErr.typeError

/-- Claim C1: the spec says `distinct([1,2,2,3,1])` yields `[1,2,3]` with
first-occurrence order and no repeats.  Evaluating the embedded code at that
input instead aborts the traversal with `NameError` and yields no list at
all. -/
theorem distinct_scenario :
    distinct [PyVal.int 1, PyVal.int 2, PyVal.int 2, PyVal.int 3, PyVal.int 1]
      = Except.error PErr.nameError := rfl

/-- Claim C2: the spec says `distinct([[1],[1]])` raises no error to the
caller and dedups to `[[1]]` via the linear-scan fallback.  Evaluating the
embedded code at that input raises `NameError` to the caller: the fallback
path is never reached. -/
theorem distinct_unhashable_scenario :
    distinct [PyVal.list [PyVal.int 1], PyVal.list [PyVal.int 1]]
      = Except.error PErr.nameError := rfl

/-- Claim C8: the spec says `list(distinct(distinct(S))) == list(distinct(S))`
for every S.  The embedded code produces no list on either side: every
traversal of `distinct`, for every source, errors out with `NameError`, so
neither side of the round-trip equation ever evaluates to a list. -/
theorem distinct_always_errors (xs : List PyVal) :
    distinct xs = Except.error PErr.nameError := rfl

/-- Claim C3: the spec says `except_([1,2,3,4], [2,4])` yields `[1,3]`.
Evaluating the embedded code at that input raises `TypeError` at
construction (wrong constructor arity at line 379) and yields no element. -/
theorem except_scenario :
    except_ [PyVal.int 1, PyVal.int 2, PyVal.int 3, PyVal.int 4]
        [PyVal.int 2, PyVal.int 4]
      = Except.error PErr.typeError := rfl

/-- Claim C5: the spec says `aggregate(f)` on an empty source with no seed
raises `NoElements`, and that on a non-empty source the elements are left
folded with `f`.  The embedded code does neither for `f = +`: the omitted
seed is the genuine initial accumulator `None`, so the empty fold returns
`None` without error, and the non-empty fold computes `None + 1`, whose
`TypeError` is misreported as `NoElementsError`.  The with-seed clauses of
the claim do hold: on an empty source the seed (transformed by the result
selector when one is supplied) is returned. -/
theorem aggregate_seedless_behavior :
    aggregate pyAdd [] PyVal.none Option.none = Except.ok PyVal.none ∧
    aggregate pyAdd [PyVal.int 1, PyVal.int 2, PyVal.int 3] PyVal.none
        Option.none
      = Except.error PErr.noElements ∧
    aggregate pyAdd [] (PyVal.int 5) Option.none = Except.ok (PyVal.int 5) ∧
    aggregate pyAdd [] (PyVal.int 5) (Option.some (fun v => PyVal.list [v]))
      = Except.ok (PyVal.list [PyVal.int 5]) :=
  ⟨rfl, rfl, rfl, rfl⟩

/-- Claim C6: the spec scenario holds — `average([1,2,3])` is `2` and
`average([])` raises `NoElements` — but the claimed equivalence (NoElements
exactly on the empty source) fails: the code tests emptiness with the
truthiness scan `any(...)`, so the non-empty all-zero source `[0,0]` also
raises `NoElementsError`. -/
theorem average_truthiness_check :
    average [1, 2, 3] = Except.ok 2 ∧
    average [] = Except.error PErr.noElements ∧
    average [0, 0] = Except.error PErr.noElements := by
  refine ⟨?_, rfl, rfl⟩
  simp [average]
  norm_num

/-- Claim C7: on a sequence exposing `__getitem__` the claim holds, but on an
iterator-only source the fallback `next(islice(it, index))` truncates the
source at `index` instead of skipping to it: `element_at` over the elements
`[10,20,30]` returns `10` (the first element) at index 2 instead of `30`,
raises `OutOfRange` at index 0 even though the source is non-empty, and
`element_at_or_default` likewise returns the first element rather than the
element at the index. -/
theorem element_at_stream_check :
    element_at (Src.seq [(10 : Int), 20, 30]) 2 = Except.ok (30 : Int) ∧
    element_at (Src.gen [(10 : Int), 20, 30]) 2 = Except.ok (10 : Int) ∧
    element_at (Src.gen [(10 : Int), 20, 30]) 0
      = Except.error PErr.outOfRange ∧
    element_at_or_default (Src.gen [(10 : Int), 20, 30]) 2 99 = (10 : Int) :=
  ⟨rfl, rfl, rfl, rfl⟩

/-- Claim C9: `count` with a predicate applies the predicate to each element
but counts every element regardless of the result, so it always agrees with
the predicate-free `count`. -/
theorem count_ignores_predicate {α : Type} (xs : List α) (p : α → Bool) :
    count xs (Option.some p) = count xs Option.none := by
  simp [count]

/-- Claim C10: `default_if_empty` tests emptiness with a truthiness scan: a
source all of whose elements are falsy — empty or not — is discarded in
favour of the one-element default sequence, and the original sequence is
returned exactly when some element is truthy. -/
theorem default_if_empty_truthiness (xs : List Int) (d : Int) :
    ((∀ x ∈ xs, x = 0) → default_if_empty xs d = [d]) ∧
    ((∃ x ∈ xs, x ≠ 0) → default_if_empty xs d = xs) := by
  have hdef : default_if_empty xs d
      = if xs.any (fun x => decide (x ≠ 0)) then xs else [d] := rfl
  constructor
  · intro h
    have hc : xs.any (fun x => decide (x ≠ 0)) = false := by
      simp only [List.any_eq_false, decide_eq_true_eq]
      simpa using h
    rw [hdef, hc]
    simp
  · intro h
    have hc : xs.any (fun x => decide (x ≠ 0)) = true := by
      simp only [List.any_eq_true, decide_eq_true_eq]
      exact h
    rw [hdef, hc]
    simp

/-- Witness for claim C10: the non-empty all-falsy source `[0,0]` is
discarded in favour of the default. -/
theorem default_if_empty_truthiness_check :
    default_if_empty [0, 0] 7 = [7] :=
  (default_if_empty_truthiness [0, 0] 7).1 (by decide)

/-- Embedding of `Pinq.group_by` (src/pinq.py lines 415-441): the outcome of
`list(Pinq(source).group_by(key_selector, ...))`.  The method is an
unimplemented stub: `GroupByIterator.__init__`, `__iter__` and `__next__`
(lines 426-433) all have `pass` bodies, and the inner `Grouping` class at
line 437 has an empty suite — a syntax error, minimally repaired to a `pass`
body, and unreachable anyway.  The call at lines 438-441 constructs
`GroupByIterator` successfully (five arguments, matching its five
parameters), but traversing the result calls `__iter__`, which returns
`None`, so every traversal raises `TypeError` (iter() returned
non-iterator) and no group is ever produced.  The denotation is therefore
the `TypeError` outcome, for every source and key selector. -/
def group_by {α κ : Type} (_xs : List α) (_k : α → κ) :
    Except PErr (List (κ × List α)) :=
  Except.error PErr.typeError

/-- Claim C4: the spec says grouping `["a","bb","cc","d"]` by length yields
the group of key 1 with members `["a","d"]` followed by the group of key 2
with members `["bb","cc"]`, with distinct keys in first-appearance order and
members partitioning the source.  Evaluating the embedded code at that input
instead aborts the traversal with `TypeError` — `group_by` is a stub whose
iterator protocol is unimplemented — and yields no group at all. -/
theorem group_by_scenario :
    group_by ["a", "bb", "cc", "d"] String.length
      = Except.error PErr.typeError := rfl

end Pinq
